import Mathlib

set_option maxRecDepth 8000

/- Formal model of the Smart Chatbot with LLM / RAG / Web-Search routing
   (source files chatbot_app.py and chatbot_app_enhanced.py).

   Python strings are modelled as Lean `String`; the Python string
   operations used by the code (`in`, `startswith`, `endswith`, `lower`,
   `split`, `join`, `isdigit`) are modelled by the `py*` functions below,
   defined by structural recursion over the underlying character lists
   (all keywords involved are ASCII, where Python and Lean case mapping
   agree).

   External collaborators (the Groq chat client, the DuckDuckGo search
   tool, the FAISS retriever, the langchain document loaders, splitter
   and embeddings) are modelled as function-valued parameters that return
   `Except String _`, the error case standing for a raised Python
   exception carrying its `str(e)` text. -/

/-- Python `needle in hay` on character lists: some tail of `hay` starts
with `needle`. -/
def listContainsSub (needle : List Char) : List Char → Bool
  | [] => needle.isEmpty
  | c :: rest => needle.isPrefixOf (c :: rest) || listContainsSub needle rest

/-- Python `needle in hay` for strings. -/
def pyContains (hay needle : String) : Bool :=
  listContainsSub needle.data hay.data

/-- Python `s.lower()` restricted to ASCII, which covers every keyword the
router matches against. -/
def pyLower (s : String) : String :=
  String.mk (s.data.map Char.toLower)

/-- Python `s.startswith(p)`. -/
def pyStartsWith (s p : String) : Bool :=
  p.data.isPrefixOf s.data

/-- Python `s.endswith(p)`. -/
def pyEndsWith (s p : String) : Bool :=
  p.data.isSuffixOf s.data

/-- Python `s.split(sep)` for a single-character separator, on character
lists: `splitOnChar '.':  "a.b" ↦ ["a","b"]`, `"abc" ↦ ["abc"]`,
`"a." ↦ ["a",""]`. -/
def splitOnChar (sep : Char) : List Char → List (List Char)
  | [] => [[]]
  | c :: rest =>
    let r := splitOnChar sep rest
    if c = sep then [] :: r
    else
      match r with
      | [] => [[c]]
      | s :: ss => (c :: s) :: ss

/-- Python `sep.join(parts)`. -/
def pyJoin (sep : String) : List String → String
  | [] => ""
  | [p] => p
  | p :: rest => p ++ sep ++ pyJoin sep rest

/-- Python `os.path.basename` (POSIX): the part after the last slash. -/
def basename (p : String) : String :=
  String.mk ((splitOnChar '/' p.data).getLastD p.data)

/-- Python `name.split('.')[-1].lower()`, the extension test used by
EnhancedChatbotManager.process_documents. -/
def pyExtLower (name : String) : String :=
  pyLower (String.mk ((splitOnChar '.' name.data).getLastD name.data))

/-- A chat turn of the ChatMessageHistory: a langchain HumanMessage or
AIMessage together with its content. -/
inductive Msg where
  | human (content : String)
  | ai (content : String)
deriving DecidableEq

/-- The Groq chat client, seen through the single operation the code uses:
`llm.invoke(prompt).content`; may raise. -/
abbrev LLMClient := String → Except String String

/-- DuckDuckGoSearchRun, seen through `search_tool.run(query)`; may raise. -/
abbrev SearchTool := String → Except String String

/-- One retrieved langchain Document: its page_content and the optional
"source" entry of its metadata. -/
structure Doc where
  page_content : String
  source : Option String

/-- A built FAISS vector store, viewed through the only operation the code
performs on it: `as_retriever(search_kwargs={"k": 4}).invoke(query)`,
which may raise. -/
def VectorStore := String → Except String (List Doc)

/- Keyword tables of the router.  The four lists below and the four helper
predicates on them appear verbatim in BOTH IntelligentRouter
(chatbot_app.py, lines 100-193) and EnhancedRouter
(chatbot_app_enhanced.py, lines 146-219); they are therefore defined once
here and shared by the two routers. -/

/-- Pronouns and references that indicate continuation
(chatbot_app.py lines 106-118 and chatbot_app_enhanced.py lines 151-159,
identical). -/
def context_indicators : List String :=
  [" it ", " its ", " that ", " this ", " these ", " those ",
   " them ", " they ", " their ",
   "the result", "the answer", "your response", "you said",
   "above", "previous", "earlier", "before",
   "also", "and", "then", "next", "now", "after that",
   "add to", "subtract from", "multiply by", "divide by",
   "plus", "minus", "times"]

/-- Detect if query refers to previous conversation
(IntelligentRouter._has_conversation_context and
EnhancedRouter._has_conversation_context, identical). -/
def _has_conversation_context (query : String) (chat_history : List Msg) : Bool :=
  if chat_history.length == 0 then false
  else
    context_indicators.any fun indicator => pyContains (pyLower query) indicator

/-- Math keywords (identical in both routers). -/
def math_keywords : List String :=
  ["calculate", "compute", "solve", "evaluate",
   "add", "sum", "plus", "addition",
   "subtract", "minus", "difference",
   "multiply", "times", "product",
   "divide", "quotient",
   "equals", "equal to",
   "square", "power", "root",
   "percentage", "percent"]

/-- Detect mathematical queries (IntelligentRouter._is_mathematical and
EnhancedRouter._is_mathematical, identical): an operator character in the
raw query, or a math keyword in the lowercased query together with at
least one digit character. -/
def _is_mathematical (query : String) : Bool :=
  let query_lower := pyLower query
  let has_operators := ['+', '-', '*', '/', '=', '^'].any fun op => query.data.contains op
  let has_math_keywords := math_keywords.any fun keyword => pyContains query_lower keyword
  let has_numbers := query.data.any Char.isDigit
  has_operators || (has_math_keywords && has_numbers)

/-- Temporal indicators (identical in both routers). -/
def temporal_words : List String :=
  ["current", "latest", "today", "now", "recent",
   "this week", "this month", "right now", "live"]

/-- Types of data that change frequently (identical in both routers). -/
def realtime_data_types : List String :=
  ["price", "rate", "stock", "market", "exchange", "crypto", "bitcoin",
   "trading", "value", "worth",
   "news", "breaking", "update", "happening", "event",
   "weather", "temperature", "forecast", "climate",
   "score", "game", "match", "tournament",
   "traffic", "status", "available", "open", "closed"]

/-- Determine if query genuinely needs real-time web data
(IntelligentRouter._needs_realtime_data and
EnhancedRouter._needs_realtime_data, identical): a temporal word AND a
realtime data type must both occur in the lowercased query. -/
def _needs_realtime_data (query : String) : Bool :=
  let query_lower := pyLower query
  let has_temporal := temporal_words.any fun word => pyContains query_lower word
  let has_realtime_type := realtime_data_types.any fun dtype => pyContains query_lower dtype
  has_temporal && has_realtime_type

/-- Document keywords (identical in both routers). -/
def doc_keywords : List String :=
  ["document", "file", "pdf", "text", "paper", "article",
   "uploaded", "attachment",
   "in the", "from the", "according to",
   "what does", "summarize", "extract",
   "content", "written", "mentioned"]

/-- Detect if query is about uploaded documents
(IntelligentRouter._references_documents and
EnhancedRouter._references_documents, identical): false when no documents
are loaded, otherwise a doc keyword must occur in the lowercased query. -/
def _references_documents (query : String) (has_documents : Bool) : Bool :=
  if !has_documents then false
  else doc_keywords.any fun keyword => pyContains (pyLower query) keyword

/-- IntelligentRouter (chatbot_app.py): holds the collaborators stored by
its constructor.  route_query reads none of them. -/
structure IntelligentRouter where
  llm : LLMClient
  search_tool : SearchTool

/-- Simple conversational openers of chatbot_app.py (stage 1). -/
def IntelligentRouter.simple_phrases : List String :=
  ["hello", "hi ", "hey ", "good morning", "good afternoon",
   "good evening", "thanks", "thank you", "bye", "goodbye",
   "how are you", "what\u0027s up", "sup", "yo "]

/-- Stage-6 indicators of chatbot_app.py. -/
def IntelligentRouter.llm_indicators : List String :=
  ["explain", "how does", "why", "what is", "who is",
   "describe", "tell me about", "can you",
   "help me", "i need", "i want",
   "write", "create", "generate", "make",
   "compare", "difference between"]

/-- IntelligentRouter.route_query (chatbot_app.py lines 195-245): the
seven-stage first-match-wins classifier, returning one of the strings
"llm", "rag", "web". -/
def IntelligentRouter.route_query (r : IntelligentRouter) (query : String)
    (has_documents : Bool) (chat_history : List Msg) : String :=
  let query_lower := pyLower query
  if IntelligentRouter.simple_phrases.any (fun phrase => pyStartsWith query_lower phrase) then
    "llm"
  else if _has_conversation_context query chat_history then
    "llm"
  else if _is_mathematical query then
    "llm"
  else if _references_documents query has_documents then
    "rag"
  else if _needs_realtime_data query then
    "web"
  else if IntelligentRouter.llm_indicators.any (fun indicator => pyContains query_lower indicator) then
    "llm"
  else
    "llm"

/-- The routing decision dict of EnhancedRouter.route_query.  Python float
confidences are modelled as exact rationals; no claim depends on
floating-point rounding of these literals. -/
structure RouteInfo where
  route : String
  confidence : ℚ
  reason : String

/-- EnhancedRouter (chatbot_app_enhanced.py): holds the collaborators
stored by its constructor.  route_query reads none of them. -/
structure EnhancedRouter where
  llm : LLMClient
  search_tool : SearchTool

/-- Simple conversational openers of chatbot_app_enhanced.py (stage 1,
without the "sup" and "yo " entries of the base file). -/
def EnhancedRouter.simple_phrases : List String :=
  ["hello", "hi ", "hey ", "good morning", "good afternoon",
   "good evening", "thanks", "thank you", "bye", "goodbye",
   "how are you", "what\u0027s up"]

/-- Stage-6 indicators of chatbot_app_enhanced.py. -/
def EnhancedRouter.llm_indicators : List String :=
  ["explain", "how does", "why", "what is", "who is",
   "describe", "tell me about", "can you",
   "help me", "write", "create", "generate",
   "compare", "difference between"]

/-- EnhancedRouter.route_query (chatbot_app_enhanced.py lines 221-270).
The body of the source method sits in a try/except, but every operation it
performs is a total string computation, so the except branch (route "llm",
confidence 0.5, reason "Error fallback") is unreachable and the method is
modelled by its try block. -/
def EnhancedRouter.route_query (r : EnhancedRouter) (query : String)
    (has_documents : Bool) (chat_history : List Msg) : RouteInfo :=
  let query_lower := pyLower query
  if EnhancedRouter.simple_phrases.any (fun phrase => pyStartsWith query_lower phrase) then
    { route := "llm", confidence := 1.0, reason := "Conversational" }
  else if _has_conversation_context query chat_history then
    { route := "llm", confidence := 1.0, reason := "Context reference" }
  else if _is_mathematical query then
    { route := "llm", confidence := 1.0, reason := "Mathematical" }
  else if _references_documents query has_documents then
    { route := "rag", confidence := 0.95, reason := "Document reference" }
  else if _needs_realtime_data query then
    { route := "web", confidence := 0.95, reason := "Real-time data" }
  else if EnhancedRouter.llm_indicators.any (fun indicator => pyContains query_lower indicator) then
    { route := "llm", confidence := 0.9, reason := "General knowledge" }
  else
    { route := "llm", confidence := 0.8, reason := "Default" }

/- Answer pipelines.  The two manager classes hold the collaborators
created by their constructors; each pipeline method is modelled on the
manager.  The prompt texts are transcribed from the source f-strings,
with the interpolation holes turned into string concatenation. -/

/-- ChatbotManager (chatbot_app.py): the Groq client, the router (which
stores the same client), and the search tool. -/
structure ChatbotManager where
  llm : LLMClient
  router : IntelligentRouter
  search_tool : SearchTool

/-- EnhancedChatbotManager (chatbot_app_enhanced.py). -/
structure EnhancedChatbotManager where
  llm : LLMClient
  router : EnhancedRouter
  search_tool : SearchTool

/-- The context window built by answer_with_llm in both files: the last 12
messages, rendered as User/Assistant lines. -/
def context_history (messages : List Msg) : List String :=
  (messages.drop (messages.length - 12)).map fun m =>
    match m with
    | Msg.human content => "User: " ++ content
    | Msg.ai content => "Assistant: " ++ content

/-- The conversation-aware LLM prompt (identical text in chatbot_app.py
lines 321-339 and chatbot_app_enhanced.py lines 367-385). -/
def prompt_with_history (context_text query : String) : String :=
  "You are an intelligent AI assistant in an ongoing conversation. Your job is to:\n" ++
  "1. Understand and use the conversation history when the user references it\n" ++
  "2. Provide accurate calculations and reasoning\n" ++
  "3. Maintain conversational flow and context awareness\n" ++
  "4. Give direct, precise answers\n\n" ++
  "CONVERSATION HISTORY:\n" ++ context_text ++
  "\n\nCURRENT USER QUESTION: " ++ query ++
  "\n\nCRITICAL INSTRUCTIONS:\n" ++
  "- If the user uses words like \"it\", \"that\", \"this\", \"the result\", or refers to something from history, USE THE CONVERSATION HISTORY ABOVE\n" ++
  "- For mathematical operations, show clear step-by-step reasoning\n" ++
  "- If continuing a previous topic, acknowledge the connection\n" ++
  "- Be natural and conversational while being accurate\n" ++
  "- Answer directly without unnecessary preamble\n\n" ++
  "YOUR RESPONSE:"

/-- The first-interaction LLM prompt (identical text in both files). -/
def prompt_first (query : String) : String :=
  "You are an intelligent AI assistant. Provide a clear, accurate, and helpful response to the user\u0027s question.\n\n" ++
  "USER QUESTION: " ++ query ++
  "\n\nINSTRUCTIONS:\n" ++
  "- Be accurate and precise\n" ++
  "- For math, show your reasoning\n" ++
  "- Be conversational and friendly\n" ++
  "- Answer directly\n\n" ++
  "YOUR RESPONSE:"

/-- Prompt selection of answer_with_llm in both files: the history prompt
when the context window is non-empty, the first-interaction prompt
otherwise. -/
def build_llm_prompt (query : String) (messages : List Msg) : String :=
  let ctx := context_history messages
  if !ctx.isEmpty then prompt_with_history (pyJoin "\n" ctx) query
  else prompt_first query

/-- ChatbotManager.answer_with_llm (chatbot_app.py lines 306-355).  The
source signature also takes chat_history but reads the session message
list; `messages` here is that session list (identical at every call
site).  There is no try/except in this variant: an invocation error
propagates to the caller. -/
def ChatbotManager.answer_with_llm (m : ChatbotManager) (query : String)
    (messages : List Msg) : Except String String :=
  m.llm (build_llm_prompt query messages)

/-- EnhancedChatbotManager.answer_with_llm (chatbot_app_enhanced.py lines
351-403): same prompt construction, but any invocation error is caught and
turned into an apologetic answer string. -/
def EnhancedChatbotManager.answer_with_llm (m : EnhancedChatbotManager) (query : String)
    (messages : List Msg) : String :=
  match m.llm (build_llm_prompt query messages) with
  | Except.ok content => content
  | Except.error e => "I apologize, but I encountered an error: " ++ e

/-- The RAG prompt (identical text in chatbot_app.py lines 371-379 and
chatbot_app_enhanced.py lines 419-427). -/
def rag_prompt (context query : String) : String :=
  "You are a helpful AI assistant. Use the following context from documents to answer the question.\n" ++
  "If the answer is not in the context, say so clearly.\n\n" ++
  "Context from documents:\n" ++ context ++
  "\n\nQuestion: " ++ query ++
  "\n\nAnswer based on the context above:"

/-- The numbered, deduplicated source list of chatbot_app.py
answer_with_rag: one line per previously unseen basename among the first
three retrieved docs; the counter advances even on duplicates. -/
def sources_lines : Nat → List String → List Doc → String
  | _, _, [] => ""
  | i, seen, d :: rest =>
    let source := basename (d.source.getD "Unknown")
    if seen.contains source then sources_lines (i + 1) seen rest
    else Nat.repr i ++ ". " ++ source ++ "\n" ++ sources_lines (i + 1) (source :: seen) rest

/-- The source list of chatbot_app_enhanced.py answer_with_rag: same
dedup logic, lines indented by three spaces. -/
def sources_lines_enhanced : Nat → List String → List Doc → String
  | _, _, [] => ""
  | i, seen, d :: rest =>
    let source := basename (d.source.getD "Unknown")
    if seen.contains source then sources_lines_enhanced (i + 1) seen rest
    else "   " ++ Nat.repr i ++ ". " ++ source ++ "\n" ++ sources_lines_enhanced (i + 1) (source :: seen) rest

/-- ChatbotManager.answer_with_rag (chatbot_app.py lines 357-398).  The
whole body sits in a try/except, so the pipeline always returns a string:
a null vector store short-circuits to the fixed no-documents message, and
any retriever or LLM exception becomes an "Error accessing documents"
message. -/
def ChatbotManager.answer_with_rag (m : ChatbotManager) (query : String)
    (vectorstore : Option VectorStore) (chat_history : List Msg) : String :=
  let body : Except String String :=
    match vectorstore with
    | none => Except.ok "No documents have been uploaded yet. Please upload documents to use RAG."
    | some vs =>
      match vs query with
      | Except.error e => Except.error e
      | Except.ok docs =>
        let context := pyJoin "\n\n" (docs.map Doc.page_content)
        match m.llm (rag_prompt context query) with
        | Except.error e => Except.error e
        | Except.ok answer =>
          Except.ok (if !docs.isEmpty then
              answer ++ "\n\n**Sources:**\n" ++ sources_lines 1 [] (docs.take 3)
            else answer)
  match body with
  | Except.ok answer => answer
  | Except.error e => "Error accessing documents: " ++ e

/-- EnhancedChatbotManager.answer_with_rag (chatbot_app_enhanced.py lines
405-447): same structure, different fixed message and source-list
formatting. -/
def EnhancedChatbotManager.answer_with_rag (m : EnhancedChatbotManager) (query : String)
    (vectorstore : Option VectorStore) (chat_history : List Msg) : String :=
  let body : Except String String :=
    match vectorstore with
    | none => Except.ok "No documents available. Please upload documents first."
    | some vs =>
      match vs query with
      | Except.error e => Except.error e
      | Except.ok docs =>
        let context := pyJoin "\n\n" (docs.map Doc.page_content)
        match m.llm (rag_prompt context query) with
        | Except.error e => Except.error e
        | Except.ok answer =>
          Except.ok (if !docs.isEmpty then
              answer ++ "\n\n📚 **Sources:**\n" ++ sources_lines_enhanced 1 [] (docs.take 3)
            else answer)
  match body with
  | Except.ok answer => answer
  | Except.error e => "Error accessing documents: " ++ e

/-- The web-synthesis prompt of chatbot_app.py answer_with_web. -/
def web_synthesis_prompt (query search_results : String) : String :=
  "Based on the following web search results, provide a comprehensive and accurate answer to the user\u0027s query.\n\n" ++
  "User Query: " ++ query ++
  "\n\nSearch Results:\n" ++ search_results ++
  "\n\nInstructions:\n" ++
  "- Synthesize the information into a clear, coherent answer\n" ++
  "- Include relevant facts and details\n" ++
  "- If the search results don\u0027t contain enough information, say so\n" ++
  "- Be concise but informative\n\n" ++
  "Answer:"

/-- The web-synthesis prompt of chatbot_app_enhanced.py answer_with_web. -/
def web_synthesis_prompt_enhanced (query search_results : String) : String :=
  "Synthesize a comprehensive answer from these web search results.\n\n" ++
  "Query: " ++ query ++
  "\n\nSearch Results:\n" ++ search_results ++
  "\n\nProvide a clear, well-structured answer with key information:"

/-- ChatbotManager.answer_with_web (chatbot_app.py lines 400-426).  The
try block runs the search and one synthesis call; the except handler
builds a message that embeds str(e) and then calls answer_with_llm on the
session history — and that call itself has no exception handling, so an
LLM failure inside the handler propagates.  `messages` is the session
message list the handler reads. -/
def ChatbotManager.answer_with_web (m : ChatbotManager) (query : String)
    (messages : List Msg) : Except String String :=
  let attempt : Except String String :=
    match m.search_tool query with
    | Except.error e => Except.error e
    | Except.ok search_results =>
      match m.llm (web_synthesis_prompt query search_results) with
      | Except.error e => Except.error e
      | Except.ok content => Except.ok (content ++ "\n\n*Source: Web Search*")
  match attempt with
  | Except.ok answer => Except.ok answer
  | Except.error e =>
    match m.answer_with_llm query messages with
    | Except.error e2 => Except.error e2
    | Except.ok fallback =>
      Except.ok ("Web search encountered an error: " ++ e ++
        "\nLet me try to answer from my knowledge instead.\n\n" ++ fallback)

/-- EnhancedChatbotManager.answer_with_web (chatbot_app_enhanced.py lines
449-472): on any search or synthesis failure it falls back to the
(total) enhanced LLM pipeline on the query with an appended note; the
exception text is logged but never enters the answer. -/
def EnhancedChatbotManager.answer_with_web (m : EnhancedChatbotManager) (query : String)
    (messages : List Msg) : String :=
  let attempt : Except String String :=
    match m.search_tool query with
    | Except.error e => Except.error e
    | Except.ok search_results =>
      match m.llm (web_synthesis_prompt_enhanced query search_results) with
      | Except.error e => Except.error e
      | Except.ok content => Except.ok (content ++ "\n\n🌐 *Information from web search*")
  match attempt with
  | Except.ok answer => answer
  | Except.error _ =>
    m.answer_with_llm (query ++ " (Note: Web search unavailable, using general knowledge)") messages

/- Document ingestion.  A file upload is modelled by its name together
with the outcome of running the loader that matches its extension on its
bytes (PyPDFLoader / TextLoader / Docx2txtLoader are external langchain
collaborators): either the page contents of the Documents it loads, or a
raised exception.  The tempfile write/unlink dance of the source is pure
resource management with no effect on the returned value and is not
modelled.  The text splitter, embeddings and FAISS.from_documents are
likewise external; they are folded into the `fromDocs` collaborator
parameter below. -/

/-- An uploaded file: its name and the result of parsing it with the
loader selected for its extension. -/
structure UFile where
  name : String
  parse : Except String (List String)

/-- The document-collection loop of ChatbotManager.process_documents
(chatbot_app.py lines 262-289): extensions are tested case-sensitively
with endswith; an unsupported extension produces a warning and the loop
continues; there is NO per-file exception handler, so a loader failure
propagates and aborts the whole batch. -/
def ChatbotManager.load_batch : List UFile → Except String (List String)
  | [] => Except.ok []
  | f :: rest =>
    if pyEndsWith f.name ".pdf" || pyEndsWith f.name ".txt" || pyEndsWith f.name ".docx" then
      match f.parse with
      | Except.error e => Except.error e
      | Except.ok docs =>
        match ChatbotManager.load_batch rest with
        | Except.error e => Except.error e
        | Except.ok tail => Except.ok (docs ++ tail)
    else ChatbotManager.load_batch rest

/-- ChatbotManager.process_documents (chatbot_app.py lines 262-304):
returns None when the collected document list is empty, otherwise the
vector store built from it.  `fromDocs` stands for the external
splitter/embedding/FAISS composition. -/
def ChatbotManager.process_documents (fromDocs : List String → VectorStore)
    (uploaded_files : List UFile) : Except String (Option VectorStore) :=
  match ChatbotManager.load_batch uploaded_files with
  | Except.error e => Except.error e
  | Except.ok documents =>
    if documents.isEmpty then Except.ok none
    else Except.ok (some (fromDocs documents))

/-- The document-collection loop of
EnhancedChatbotManager.process_documents (chatbot_app_enhanced.py lines
294-331): the extension is name.split('.')[-1].lower(); each file's body
sits in a try/except, so a loader failure is recorded in the errors list
and the loop continues; an unsupported extension is likewise recorded.
Returns (errors, documents) in loop order. -/
def EnhancedChatbotManager.load_batch : List UFile → List String × List String
  | [] => ([], [])
  | f :: rest =>
    let r := EnhancedChatbotManager.load_batch rest
    let file_ext := pyExtLower f.name
    if file_ext = "pdf" then
      match f.parse with
      | Except.error e => (("Error processing " ++ f.name ++ ": " ++ e) :: r.1, r.2)
      | Except.ok docs => (r.1, docs ++ r.2)
    else if file_ext = "txt" then
      match f.parse with
      | Except.error e => (("Error processing " ++ f.name ++ ": " ++ e) :: r.1, r.2)
      | Except.ok docs => (r.1, docs ++ r.2)
    else if file_ext = "docx" then
      match f.parse with
      | Except.error e => (("Error processing " ++ f.name ++ ": " ++ e) :: r.1, r.2)
      | Except.ok docs => (r.1, docs ++ r.2)
    else (("Unsupported file type: " ++ f.name) :: r.1, r.2)

/-- EnhancedChatbotManager.process_documents (chatbot_app_enhanced.py
lines 294-349): the collected errors are shown as a warning banner
(returned here as the first component); a null index is returned exactly
when no document text was collected. -/
def EnhancedChatbotManager.process_documents (fromDocs : List String → VectorStore)
    (uploaded_files : List UFile) : List String × Option VectorStore :=
  let r := EnhancedChatbotManager.load_batch uploaded_files
  (r.1, if r.2.isEmpty then none else some (fromDocs r.2))

/- Session orchestration. -/

/-- The session state read and written by ChatbotManager.process_query:
st.session_state.vectorstore and st.session_state.chat_history.messages. -/
structure SState where
  vectorstore : Option VectorStore
  chat_history : List Msg

/-- The result dict of ChatbotManager.process_query. -/
structure QueryResult where
  answer : String
  route : String

/-- The route dispatch of ChatbotManager.process_query (chatbot_app.py
lines 437-442): the if/elif/else on the route string. -/
def ChatbotManager.dispatch (m : ChatbotManager) (route : String) (query : String)
    (vectorstore : Option VectorStore) (chat_history : List Msg) : Except String String :=
  if route = "rag" then Except.ok (m.answer_with_rag query vectorstore chat_history)
  else if route = "web" then m.answer_with_web query chat_history
  else m.answer_with_llm query chat_history

/-- ChatbotManager.process_query (chatbot_app.py lines 428-451).  There is
no exception handling here: if the dispatched pipeline raises, the
exception escapes to the caller and — because the two memory appends only
happen after the answer is obtained — the session state is left
untouched.  On success both turns are appended before returning. -/
def ChatbotManager.process_query (m : ChatbotManager) (st : SState) (query : String) :
    Except String QueryResult × SState :=
  let has_documents := st.vectorstore.isSome
  let chat_history := st.chat_history
  let route := m.router.route_query query has_documents chat_history
  match m.dispatch route query st.vectorstore chat_history with
  | Except.error e => (Except.error e, st)
  | Except.ok answer =>
    (Except.ok { answer := answer, route := route },
     { st with chat_history := st.chat_history ++ [Msg.human query, Msg.ai answer] })

/-- The session state of the enhanced app: vector store, message history,
route statistics and query counter. -/
structure EState where
  vectorstore : Option VectorStore
  chat_history : List Msg
  route_stats : String → Nat
  total_queries : Nat

/-- The result dict of EnhancedChatbotManager.process_query. -/
structure EResult where
  answer : String
  route : String
  confidence : ℚ
  reason : String

/-- The route dispatch of EnhancedChatbotManager.process_query
(chatbot_app_enhanced.py lines 485-490).  Every enhanced pipeline is
total, so dispatch is too. -/
def EnhancedChatbotManager.dispatch (m : EnhancedChatbotManager) (route : String)
    (query : String) (vectorstore : Option VectorStore) (chat_history : List Msg) : String :=
  if route = "rag" then m.answer_with_rag query vectorstore chat_history
  else if route = "web" then m.answer_with_web query chat_history
  else m.answer_with_llm query chat_history

/-- EnhancedChatbotManager.process_query (chatbot_app_enhanced.py lines
474-511).  The body sits in a try/except returning route "error", but
routing, every pipeline, the two appends and the stats update (the route
is always one of the three dict keys) are total, so the handler is
unreachable and the function always returns the structured result of the
try block, with both turns appended. -/
def EnhancedChatbotManager.process_query (m : EnhancedChatbotManager) (st : EState)
    (query : String) : EResult × EState :=
  let has_documents := st.vectorstore.isSome
  let chat_history := st.chat_history
  let route_info := m.router.route_query query has_documents chat_history
  let route := route_info.route
  let answer := m.dispatch route query st.vectorstore chat_history
  ({ answer := answer, route := route,
     confidence := route_info.confidence, reason := route_info.reason },
   { st with
       chat_history := st.chat_history ++ [Msg.human query, Msg.ai answer],
       route_stats := fun k => if k = route then st.route_stats k + 1 else st.route_stats k,
       total_queries := st.total_queries + 1 })

/- Concrete collaborator instantiations used by the closed theorems
below. -/

/-- A router whose stored collaborators always fail; route_query never
consults them. -/
def rStub : IntelligentRouter :=
  ⟨fun _ => Except.error "", fun _ => Except.error ""⟩

/-- The enhanced counterpart of `rStub`. -/
def reStub : EnhancedRouter :=
  ⟨fun _ => Except.error "", fun _ => Except.error ""⟩

/-- A base manager whose LLM client always raises. -/
def mLlmDown : ChatbotManager :=
  ⟨fun _ => Except.error "llm down", rStub, fun _ => Except.error "no net"⟩

/-- A base manager whose search tool raises and whose LLM succeeds. -/
def mSearchDown : ChatbotManager :=
  ⟨fun _ => Except.ok "fine answer", rStub, fun _ => Except.error "SEARCHBOOM42"⟩

/-- An enhanced manager whose search tool raises and whose LLM succeeds. -/
def meSearchDown : EnhancedChatbotManager :=
  ⟨fun _ => Except.ok "OK", reStub, fun _ => Except.error "BOOM"⟩

/-- The empty session state of the base app. -/
def st0 : SState := ⟨none, []⟩

/-- A vector store that retrieves nothing. -/
def vsEmpty : VectorStore := fun _ => Except.ok []

/-- A trivial splitter/embedding/FAISS collaborator. -/
def fromDocsStub : List String → VectorStore := fun _ => vsEmpty


/- Helper lemmas about the staged classifier. -/

/-- A non-empty history plus any matching continuation indicator makes
stage 2 fire. -/
theorem has_context_of_marker (q : String) (hist : List Msg) (hne : hist ≠ [])
    (hm : ∃ m ∈ context_indicators, pyContains (pyLower q) m = true) :
    _has_conversation_context q hist = true := by
  cases hist with
  | nil => exact absurd rfl hne
  | cons a t =>
    simp only [_has_conversation_context]
    rw [if_neg (by simp), List.any_eq_true]
    exact hm

/-- Stage 2 firing forces route "llm" in the base router (stage 1 also
answers "llm", so whichever of the two fires first, the result is
"llm"). -/
theorem route_llm_of_context (r : IntelligentRouter) (q : String) (hd : Bool)
    (hist : List Msg) (h : _has_conversation_context q hist = true) :
    IntelligentRouter.route_query r q hd hist = "llm" := by
  simp [IntelligentRouter.route_query, h]

/-- Stage 2 firing forces route "llm" in the enhanced router. -/
theorem enhanced_route_llm_of_context (e : EnhancedRouter) (q : String) (hd : Bool)
    (hist : List Msg) (h : _has_conversation_context q hist = true) :
    (EnhancedRouter.route_query e q hd hist).route = "llm" := by
  simp [EnhancedRouter.route_query, h, apply_ite RouteInfo.route]

/-- An operator character makes _is_mathematical true. -/
theorem is_mathematical_of_op (q : String)
    (h : (['+', '-', '*', '/', '=', '^'].any fun op => q.data.contains op) = true) :
    _is_mathematical q = true := by
  simp only [_is_mathematical, h, Bool.true_or]

/-- A true stage-3 test forces route "llm" in the base router: stages 1
and 2 both answer "llm" as well, so whichever of the first three stages
fires, the result is "llm". -/
theorem route_llm_of_math (r : IntelligentRouter) (q : String) (hd : Bool)
    (hist : List Msg) (h : _is_mathematical q = true) :
    IntelligentRouter.route_query r q hd hist = "llm" := by
  simp [IntelligentRouter.route_query, h]

/-- A true stage-3 test forces route "llm" in the enhanced router. -/
theorem enhanced_route_llm_of_math (e : EnhancedRouter) (q : String) (hd : Bool)
    (hist : List Msg) (h : _is_mathematical q = true) :
    (EnhancedRouter.route_query e q hd hist).route = "llm" := by
  simp [EnhancedRouter.route_query, h, apply_ite RouteInfo.route]

/-- Route "web" can only come from stage 5, so its test was true. -/
theorem base_web_needs_realtime (r : IntelligentRouter) (q : String) (hd : Bool)
    (hist : List Msg) (h : IntelligentRouter.route_query r q hd hist = "web") :
    _needs_realtime_data q = true := by
  simp only [IntelligentRouter.route_query] at h
  split at h
  · exact absurd h (by decide)
  split at h
  · exact absurd h (by decide)
  split at h
  · exact absurd h (by decide)
  split at h
  · exact absurd h (by decide)
  split at h
  · assumption
  split at h
  · exact absurd h (by decide)
  · exact absurd h (by decide)

/-- Route "web" can only come from stage 5 of the enhanced router. -/
theorem enhanced_web_needs_realtime (e : EnhancedRouter) (q : String) (hd : Bool)
    (hist : List Msg) (h : (EnhancedRouter.route_query e q hd hist).route = "web") :
    _needs_realtime_data q = true := by
  simp only [EnhancedRouter.route_query] at h
  split at h
  · exact absurd h (by decide)
  split at h
  · exact absurd h (by decide)
  split at h
  · exact absurd h (by decide)
  split at h
  · exact absurd h (by decide)
  split at h
  · assumption
  split at h
  · exact absurd h (by decide)
  · exact absurd h (by decide)

/-- Route "rag" can only come from stage 4, so its test was true. -/
theorem base_rag_references (r : IntelligentRouter) (q : String) (hd : Bool)
    (hist : List Msg) (h : IntelligentRouter.route_query r q hd hist = "rag") :
    _references_documents q hd = true := by
  simp only [IntelligentRouter.route_query] at h
  split at h
  · exact absurd h (by decide)
  split at h
  · exact absurd h (by decide)
  split at h
  · exact absurd h (by decide)
  split at h
  · assumption
  split at h
  · exact absurd h (by decide)
  split at h
  · exact absurd h (by decide)
  · exact absurd h (by decide)

/-- Route "rag" can only come from stage 4 of the enhanced router. -/
theorem enhanced_rag_references (e : EnhancedRouter) (q : String) (hd : Bool)
    (hist : List Msg) (h : (EnhancedRouter.route_query e q hd hist).route = "rag") :
    _references_documents q hd = true := by
  simp only [EnhancedRouter.route_query] at h
  split at h
  · exact absurd h (by decide)
  split at h
  · exact absurd h (by decide)
  split at h
  · exact absurd h (by decide)
  split at h
  · assumption
  split at h
  · exact absurd h (by decide)
  split at h
  · exact absurd h (by decide)
  · exact absurd h (by decide)

/- Helper lemmas about the enhanced ingestion loop. -/

/-- The document contribution of a single file in the enhanced ingestion
loop: its loaded pages when its extension is supported and its loader
succeeded, nothing otherwise. -/
def docsOfFile (f : UFile) : List String :=
  if pyExtLower f.name = "pdf" ∨ pyExtLower f.name = "txt" ∨ pyExtLower f.name = "docx" then
    match f.parse with
    | Except.ok docs => docs
    | Except.error _ => []
  else []

/-- One step of the enhanced ingestion loop: the head file contributes its
own documents in front of the rest, and never removes recorded errors. -/
theorem enhanced_load_batch_cons (g : UFile) (l : List UFile) :
    (EnhancedChatbotManager.load_batch (g :: l)).2 =
      docsOfFile g ++ (EnhancedChatbotManager.load_batch l).2 ∧
    (EnhancedChatbotManager.load_batch l).1 ⊆ (EnhancedChatbotManager.load_batch (g :: l)).1 := by
  by_cases h1 : pyExtLower g.name = "pdf"
  · cases hp : g.parse with
    | error ge =>
      exact ⟨by simp [EnhancedChatbotManager.load_batch, docsOfFile, h1, hp],
             by simp [EnhancedChatbotManager.load_batch, h1, hp, List.subset_cons_self]⟩
    | ok docs =>
      exact ⟨by simp [EnhancedChatbotManager.load_batch, docsOfFile, h1, hp],
             by simp [EnhancedChatbotManager.load_batch, h1, hp]⟩
  · by_cases h2 : pyExtLower g.name = "txt"
    · cases hp : g.parse with
      | error ge =>
        exact ⟨by simp [EnhancedChatbotManager.load_batch, docsOfFile, h1, h2, hp],
               by simp [EnhancedChatbotManager.load_batch, h1, h2, hp, List.subset_cons_self]⟩
      | ok docs =>
        exact ⟨by simp [EnhancedChatbotManager.load_batch, docsOfFile, h1, h2, hp],
               by simp [EnhancedChatbotManager.load_batch, h1, h2, hp]⟩
    · by_cases h3 : pyExtLower g.name = "docx"
      · cases hp : g.parse with
        | error ge =>
          exact ⟨by simp [EnhancedChatbotManager.load_batch, docsOfFile, h1, h2, h3, hp],
                 by simp [EnhancedChatbotManager.load_batch, h1, h2, h3, hp, List.subset_cons_self]⟩
        | ok docs =>
          exact ⟨by simp [EnhancedChatbotManager.load_batch, docsOfFile, h1, h2, h3, hp],
                 by simp [EnhancedChatbotManager.load_batch, h1, h2, h3, hp]⟩
      · exact ⟨by simp [EnhancedChatbotManager.load_batch, docsOfFile, h1, h2, h3],
               by simp [EnhancedChatbotManager.load_batch, h1, h2, h3, List.subset_cons_self]⟩

/-- A supported file whose loader raises contributes nothing to the
collected documents — the rest of the batch is unaffected — and its error
message is recorded. -/
theorem enhanced_parse_failure_skipped (pre post : List UFile) (f : UFile) (e : String)
    (hparse : f.parse = Except.error e)
    (hsupp : pyExtLower f.name = "pdf" ∨ pyExtLower f.name = "txt" ∨ pyExtLower f.name = "docx") :
    (EnhancedChatbotManager.load_batch (pre ++ f :: post)).2 =
      (EnhancedChatbotManager.load_batch (pre ++ post)).2 ∧
    ("Error processing " ++ f.name ++ ": " ++ e) ∈
      (EnhancedChatbotManager.load_batch (pre ++ f :: post)).1 := by
  induction pre with
  | nil =>
    constructor
    · rcases hsupp with h | h | h <;>
        simp [EnhancedChatbotManager.load_batch, h, hparse]
    · rcases hsupp with h | h | h <;>
        simp [EnhancedChatbotManager.load_batch, h, hparse]
  | cons g pre ih =>
    simp only [List.cons_append]
    constructor
    · rw [(enhanced_load_batch_cons g (pre ++ f :: post)).1,
          (enhanced_load_batch_cons g (pre ++ post)).1, ih.1]
    · exact (enhanced_load_batch_cons g (pre ++ f :: post)).2 ih.2

/- Claim theorems. -/

/-- C1: for every non-empty conversation, any query containing a
continuation marker is routed to LLM by both classifiers, even when
documents are present (any hd) and the query also contains a document
keyword — stage 2 (context continuation) takes priority over stage 4
(document reference), since stages 1 and 2 both answer "llm" and stage 4
is only reached when stage 2 failed. -/
theorem c1_continuation_overrides_documents (r : IntelligentRouter) (e : EnhancedRouter)
    (q : String) (hd : Bool) (hist : List Msg) (hne : hist ≠ [])
    (hm : ∃ m ∈ context_indicators, pyContains (pyLower q) m = true) :
    IntelligentRouter.route_query r q hd hist = "llm" ∧
    (EnhancedRouter.route_query e q hd hist).route = "llm" :=
  ⟨route_llm_of_context r q hd hist (has_context_of_marker q hist hne hm),
   enhanced_route_llm_of_context e q hd hist (has_context_of_marker q hist hne hm)⟩

/-- C1 witness: with documents present and a non-empty conversation, the
query "What does it say in the document?" (marker " it ", document
keywords "document", "in the", "what does") routes to LLM in both apps. -/
theorem c1_witness :
    IntelligentRouter.route_query rStub "What does it say in the document?" true
      [Msg.human "Summarize the report", Msg.ai "Done"] = "llm" ∧
    (EnhancedRouter.route_query reStub "What does it say in the document?" true
      [Msg.human "Summarize the report", Msg.ai "Done"]).route = "llm" :=
  c1_continuation_overrides_documents rStub reStub "What does it say in the document?" true
    [Msg.human "Summarize the report", Msg.ai "Done"] (by decide)
    ⟨" it ", by decide, by decide⟩

/-- C3: both classifiers answer WEB only when the query contains a
temporal marker AND a volatile-data-type keyword; a query containing only
one of the two families can therefore never reach route "web". -/
theorem c3_web_requires_both_families (r : IntelligentRouter) (e : EnhancedRouter)
    (q : String) (hd : Bool) (hist : List Msg) :
    (IntelligentRouter.route_query r q hd hist = "web" →
       (temporal_words.any fun word => pyContains (pyLower q) word) = true ∧
       (realtime_data_types.any fun dtype => pyContains (pyLower q) dtype) = true) ∧
    ((EnhancedRouter.route_query e q hd hist).route = "web" →
       (temporal_words.any fun word => pyContains (pyLower q) word) = true ∧
       (realtime_data_types.any fun dtype => pyContains (pyLower q) dtype) = true) := by
  constructor
  · intro h
    have hn := base_web_needs_realtime r q hd hist h
    simpa only [_needs_realtime_data, Bool.and_eq_true] using hn
  · intro h
    have hn := enhanced_web_needs_realtime e q hd hist h
    simpa only [_needs_realtime_data, Bool.and_eq_true] using hn

/-- C3 witness: "latest bitcoin price" does route to WEB, and the theorem
then yields both keyword families. -/
theorem c3_witness :
    (temporal_words.any fun word => pyContains (pyLower "latest bitcoin price") word) = true ∧
    (realtime_data_types.any fun dtype => pyContains (pyLower "latest bitcoin price") dtype) = true :=
  (c3_web_requires_both_families rStub reStub "latest bitcoin price" false []).1 (by decide)

/-- C4: both classifiers answer RAG only when documents are present and
the query contains a document-referring keyword; with hasDocuments false
the route is never "rag", document keyword or not. -/
theorem c4_rag_requires_documents_and_keyword (r : IntelligentRouter) (e : EnhancedRouter)
    (q : String) (hd : Bool) (hist : List Msg) :
    (IntelligentRouter.route_query r q hd hist = "rag" →
       hd = true ∧ (doc_keywords.any fun keyword => pyContains (pyLower q) keyword) = true) ∧
    ((EnhancedRouter.route_query e q hd hist).route = "rag" →
       hd = true ∧ (doc_keywords.any fun keyword => pyContains (pyLower q) keyword) = true) := by
  constructor
  · intro h
    have hr := base_rag_references r q hd hist h
    cases hd with
    | false => simp [_references_documents] at hr
    | true => exact ⟨rfl, by simpa [_references_documents] using hr⟩
  · intro h
    have hr := enhanced_rag_references e q hd hist h
    cases hd with
    | false => simp [_references_documents] at hr
    | true => exact ⟨rfl, by simpa [_references_documents] using hr⟩

/-- C4 witness: with documents present, "summarize the pdf" routes to RAG
and the theorem yields the keyword fact. -/
theorem c4_witness :
    true = true ∧
    (doc_keywords.any fun keyword => pyContains (pyLower "summarize the pdf") keyword) = true :=
  (c4_rag_requires_documents_and_keyword rStub reStub "summarize the pdf" true []).1 (by decide)

/-- C5: a query containing an arithmetic operator character makes stage 3
fire if reached, and stages 1 and 2 — the only ones that can fire before
it — also answer "llm"; so both classifiers route to LLM regardless of
conversation state, documents, or the word "latest". -/
theorem c5_operator_forces_llm (r : IntelligentRouter) (e : EnhancedRouter)
    (q : String) (hd : Bool) (hist : List Msg)
    (h : (['+', '-', '*', '/', '=', '^'].any fun op => q.data.contains op) = true) :
    IntelligentRouter.route_query r q hd hist = "llm" ∧
    (EnhancedRouter.route_query e q hd hist).route = "llm" :=
  ⟨route_llm_of_math r q hd hist (is_mathematical_of_op q h),
   enhanced_route_llm_of_math e q hd hist (is_mathematical_of_op q h)⟩

/-- C5 witness: "what is 2+2 latest price" contains an operator and the
word "latest"; it still routes to LLM in both apps. -/
theorem c5_witness :
    IntelligentRouter.route_query rStub "what is 2+2 latest price" true [Msg.human "x"] = "llm" ∧
    (EnhancedRouter.route_query reStub "what is 2+2 latest price" true [Msg.human "x"]).route = "llm" :=
  c5_operator_forces_llm rStub reStub "what is 2+2 latest price" true [Msg.human "x"] (by decide)

/-- C8: with a null vector index, both RAG pipelines return their fixed
no-documents message for every query (document keyword or not); the
result is the same constant for every manager, i.e. it does not depend on
the held LLM client or search tool, so neither the retriever nor the
language model is consulted. -/
theorem c8_rag_null_index_fixed_message (m : ChatbotManager) (me : EnhancedChatbotManager)
    (q : String) (hist : List Msg) :
    ChatbotManager.answer_with_rag m q none hist =
      "No documents have been uploaded yet. Please upload documents to use RAG." ∧
    EnhancedChatbotManager.answer_with_rag me q none hist =
      "No documents available. Please upload documents first." :=
  ⟨rfl, rfl⟩

/-- C9: both classifiers are pure functions of the triple (query,
hasDocuments, conversation): the decision is identical across any two
router instances — in particular across any collaborator state the router
object holds — and hence classifying the same triple twice yields an
identical RouteDecision. -/
theorem c9_classifier_pure (r1 r2 : IntelligentRouter) (e1 e2 : EnhancedRouter)
    (q : String) (hd : Bool) (hist : List Msg) :
    IntelligentRouter.route_query r1 q hd hist = IntelligentRouter.route_query r2 q hd hist ∧
    EnhancedRouter.route_query e1 q hd hist = EnhancedRouter.route_query e2 q hd hist :=
  ⟨rfl, rfl⟩

/-- C10: stage-2 markers are plain substring matches on the lowercased
query — any query containing the letter sequence "and" (also inside
words such as "understand" or "Random") routes to LLM once the
conversation is non-empty, for any hasDocuments value; the pronoun
markers carry surrounding spaces and are members of the indicator list in
exactly that form; and queries ending in "it?" or "it" (such as
"What about it?") match no indicator at all, so stage 2 does not fire on
them. -/
theorem c10_plain_substring_semantics :
    (∀ (r : IntelligentRouter) (e : EnhancedRouter) (q : String) (hd : Bool) (hist : List Msg),
       hist ≠ [] → pyContains (pyLower q) "and" = true →
       IntelligentRouter.route_query r q hd hist = "llm" ∧
       (EnhancedRouter.route_query e q hd hist).route = "llm") ∧
    (∀ m ∈ [" it ", " its ", " that ", " this ", " these ", " those ",
            " them ", " they ", " their "],
       m ∈ context_indicators ∧ pyStartsWith m " " = true ∧ pyEndsWith m " " = true) ∧
    _has_conversation_context "What about it?" [Msg.human "2+2", Msg.ai "4"] = false ∧
    _has_conversation_context "Tell me more about it" [Msg.human "2+2", Msg.ai "4"] = false := by
  refine ⟨?_, by decide, by decide, by decide⟩
  intro r e q hd hist hne hand
  have hctx := has_context_of_marker q hist hne ⟨"and", by decide, hand⟩
  exact ⟨route_llm_of_context r q hd hist hctx, enhanced_route_llm_of_context e q hd hist hctx⟩

/-- C10 witness: "I understand Random forests" contains "and" only inside
words, yet routes to LLM in both apps once the conversation is
non-empty, even with documents present. -/
theorem c10_witness :
    IntelligentRouter.route_query rStub "I understand Random forests" true
      [Msg.human "hi"] = "llm" ∧
    (EnhancedRouter.route_query reStub "I understand Random forests" true
      [Msg.human "hi"]).route = "llm" :=
  c10_plain_substring_semantics.1 rStub reStub "I understand Random forests" true
    [Msg.human "hi"] (by decide) (by decide)

/-- C2 counterexample: in chatbot_app.py the LLM pipeline has no
exception handling and process_query has none either, so with an LLM
client that raises, process_query propagates the pipeline exception to
the caller instead of returning a structured result (the session state is
left untouched). -/
theorem c2_counterexample_base_llm_error :
    ChatbotManager.process_query mLlmDown st0 "hello there" =
      (Except.error "llm down", st0) :=
  rfl

/-- C2 amended: the enhanced orchestrator always returns a structured
result — every pipeline and the router catch their own exceptions, so the
outer handler (route "error") is unreachable — and appends exactly the
User turn followed by the Assistant turn.  The base orchestrator is
atomic with respect to the Conversation: either it fails by propagating a
pipeline exception and the state is unchanged, or it succeeds and exactly
the two turns are appended in order; but it does not satisfy
"never propagates", as the counterexample shows. -/
theorem c2_orchestration_amended :
    (∀ (m : EnhancedChatbotManager) (st : EState) (q : String),
       (EnhancedChatbotManager.process_query m st q).2.chat_history =
         st.chat_history ++
           [Msg.human q, Msg.ai (EnhancedChatbotManager.process_query m st q).1.answer]) ∧
    (∀ (m : ChatbotManager) (st : SState) (q : String),
       (∃ e, ChatbotManager.process_query m st q = (Except.error e, st)) ∨
       (∃ res, ChatbotManager.process_query m st q =
          (Except.ok res,
           { st with chat_history :=
               st.chat_history ++ [Msg.human q, Msg.ai res.answer] }))) := by
  constructor
  · intro m st q
    rfl
  · intro m st q
    cases hA : ChatbotManager.dispatch m
        (IntelligentRouter.route_query m.router q st.vectorstore.isSome st.chat_history) q
        st.vectorstore st.chat_history with
    | error e =>
      left
      exact ⟨e, by simp only [ChatbotManager.process_query, hA]⟩
    | ok answer =>
      right
      refine ⟨⟨answer,
        IntelligentRouter.route_query m.router q st.vectorstore.isSome st.chat_history⟩, ?_⟩
      simp only [ChatbotManager.process_query, hA]

/-- C2 witness: applying the amended theorem at a concrete succeeding
manager and at `mLlmDown` exercises both branches. -/
theorem c2_witness :
    (EnhancedChatbotManager.process_query ⟨fun _ => Except.ok "OK", reStub,
        fun _ => Except.error "down"⟩ ⟨none, [], fun _ => 0, 0⟩ "hi there").2.chat_history =
      [] ++ [Msg.human "hi there",
        Msg.ai (EnhancedChatbotManager.process_query ⟨fun _ => Except.ok "OK", reStub,
          fun _ => Except.error "down"⟩ ⟨none, [], fun _ => 0, 0⟩ "hi there").1.answer] ∧
    ((∃ e, ChatbotManager.process_query mLlmDown st0 "hello there" = (Except.error e, st0)) ∨
     (∃ res, ChatbotManager.process_query mLlmDown st0 "hello there" =
        (Except.ok res,
         { st0 with chat_history := st0.chat_history ++
             [Msg.human "hello there", Msg.ai res.answer] }))) :=
  ⟨c2_orchestration_amended.1 ⟨fun _ => Except.ok "OK", reStub, fun _ => Except.error "down"⟩
      ⟨none, [], fun _ => 0, 0⟩ "hi there",
   c2_orchestration_amended.2 mLlmDown st0 "hello there"⟩

/-- C6 counterexample: in chatbot_app.py the ingestion loop has no
per-file exception handler — only unsupported extensions are skipped — so
one file's parse failure aborts the whole batch (here the healthy second
file is never reached) instead of being recorded as a warning and
skipped. -/
theorem c6_counterexample_base_batch_abort :
    ChatbotManager.process_documents fromDocsStub
      [⟨"a.txt", Except.error "parse failure"⟩, ⟨"b.txt", Except.ok ["some text"]⟩] =
      Except.error "parse failure" :=
  rfl

/-- C6 amended: in the enhanced ingestor a single file's parse failure is
caught, recorded as a warning, and processing continues with the
remaining files unchanged, and a null index is reported exactly when the
whole batch yields no extractable text; in the base ingestor only
unsupported extensions are skipped with a warning, while a parse failure
aborts the batch (see the counterexample). -/
theorem c6_ingestion_amended :
    (∀ (fromDocs : List String → VectorStore) (files : List UFile),
       (EnhancedChatbotManager.process_documents fromDocs files).2 = none ↔
         (EnhancedChatbotManager.load_batch files).2 = []) ∧
    (∀ (pre post : List UFile) (f : UFile) (e : String),
       f.parse = Except.error e →
       (pyExtLower f.name = "pdf" ∨ pyExtLower f.name = "txt" ∨ pyExtLower f.name = "docx") →
       (EnhancedChatbotManager.load_batch (pre ++ f :: post)).2 =
         (EnhancedChatbotManager.load_batch (pre ++ post)).2 ∧
       ("Error processing " ++ f.name ++ ": " ++ e) ∈
         (EnhancedChatbotManager.load_batch (pre ++ f :: post)).1) := by
  constructor
  · intro fromDocs files
    simp only [EnhancedChatbotManager.process_documents]
    rcases h : (EnhancedChatbotManager.load_batch files).2 with _ | ⟨d, ds⟩ <;> simp [h]
  · intro pre post f e hp hs
    exact enhanced_parse_failure_skipped pre post f e hp hs

/-- C6 witness: a failing "bad.pdf" between two healthy text files leaves
the collected documents unchanged and records the warning. -/
theorem c6_witness :
    (EnhancedChatbotManager.load_batch
        [⟨"good1.txt", Except.ok ["alpha"]⟩, ⟨"bad.pdf", Except.error "boom"⟩,
         ⟨"good2.txt", Except.ok ["beta"]⟩]).2 =
      (EnhancedChatbotManager.load_batch
        [⟨"good1.txt", Except.ok ["alpha"]⟩, ⟨"good2.txt", Except.ok ["beta"]⟩]).2 ∧
    ("Error processing " ++ "bad.pdf" ++ ": " ++ "boom") ∈
      (EnhancedChatbotManager.load_batch
        [⟨"good1.txt", Except.ok ["alpha"]⟩, ⟨"bad.pdf", Except.error "boom"⟩,
         ⟨"good2.txt", Except.ok ["beta"]⟩]).1 :=
  c6_ingestion_amended.2 [⟨"good1.txt", Except.ok ["alpha"]⟩]
    [⟨"good2.txt", Except.ok ["beta"]⟩] ⟨"bad.pdf", Except.error "boom"⟩ "boom" rfl
    (Or.inl (by decide))

/-- C7 counterexample: in chatbot_app.py the web pipeline does fall back
to the LLM pipeline, but it prefixes the fallback answer with a note that
embeds str(e), so the final answer does contain the raw exception text. -/
theorem c7_counterexample_base_raw_error :
    ChatbotManager.answer_with_web mSearchDown
        "What is the current stock price of Acme Corp?" [] =
      Except.ok ("Web search encountered an error: SEARCHBOOM42\nLet me try to answer from my knowledge instead.\n\nfine answer") ∧
    pyContains "Web search encountered an error: SEARCHBOOM42\nLet me try to answer from my knowledge instead.\n\nfine answer" "SEARCHBOOM42" = true := by
  constructor
  · rfl
  · decide

/-- C7 amended: when the web search tool raises, the enhanced pipeline
returns exactly the LLM pipeline's answer on the query with the appended
unavailable-note — independent of the exception, whose text therefore
never enters the answer; the base pipeline also falls back to the LLM
pipeline on the same query, but prepends a note containing the raw
exception text (see the counterexample). -/
theorem c7_web_fallback_amended :
    (∀ (m : EnhancedChatbotManager) (q : String) (messages : List Msg) (e : String),
       m.search_tool q = Except.error e →
       EnhancedChatbotManager.answer_with_web m q messages =
         EnhancedChatbotManager.answer_with_llm m
           (q ++ " (Note: Web search unavailable, using general knowledge)") messages) ∧
    (∀ (m : ChatbotManager) (q : String) (messages : List Msg) (e fb : String),
       m.search_tool q = Except.error e →
       ChatbotManager.answer_with_llm m q messages = Except.ok fb →
       ChatbotManager.answer_with_web m q messages =
         Except.ok ("Web search encountered an error: " ++ e ++
           "\nLet me try to answer from my knowledge instead.\n\n" ++ fb)) := by
  constructor
  · intro m q messages e hs
    simp only [EnhancedChatbotManager.answer_with_web, hs]
  · intro m q messages e fb hs hfb
    simp only [ChatbotManager.answer_with_web, hs, hfb]

/-- C7 witness: with a failing search tool, the enhanced web pipeline
equals the enhanced LLM pipeline on the annotated query, and the base
pipeline produces the note-plus-fallback answer. -/
theorem c7_witness :
    EnhancedChatbotManager.answer_with_web meSearchDown
        "What is the current stock price of Acme Corp?" [] =
      EnhancedChatbotManager.answer_with_llm meSearchDown
        ("What is the current stock price of Acme Corp?" ++
          " (Note: Web search unavailable, using general knowledge)") [] ∧
    ChatbotManager.answer_with_web mSearchDown "current Acme stock price" [] =
      Except.ok ("Web search encountered an error: " ++ "SEARCHBOOM42" ++
        "\nLet me try to answer from my knowledge instead.\n\n" ++ "fine answer") :=
  ⟨c7_web_fallback_amended.1 meSearchDown "What is the current stock price of Acme Corp?" []
      "BOOM" rfl,
   c7_web_fallback_amended.2 mSearchDown "current Acme stock price" [] "SEARCHBOOM42"
      "fine answer" rfl rfl⟩
